import Mathlib

/-!
Shallow embedding of the sheHealth-ai backend inference services
(anemia, PCOS, osteoporosis, thyroid, breast cancer), translated from
`src/backend/*/inference.py` and the Flask wrappers in `app.py`.

Conventions of the embedding:
* Python floats are modelled as rationals (`ℚ`); no claim under study
  depends on binary floating-point rounding.
* A JSON/dict input record is an association list; a key absent from the
  list models a missing field.
* Pickled sklearn/keras pipelines are opaque loaded artifacts: they are
  modelled as function-valued fields of an artifacts structure, so every
  theorem quantifies over the loaded model.
* pandas cells that can be NaN are modelled as `Option ℚ` / `Option PyVal`
  with `none` standing for NaN.
* `raise ValueError(...)` paths are modelled with `Except`; the payload
  keeps, structurally, the list of field names the message text embeds.
-/

/-- A JSON-like record of numeric fields (Python dict of floats). -/
abbrev Record := List (String × ℚ)

/-- `d.get(k)`: first binding of key `k`, `none` when the key is absent. -/
def getField (r : Record) (k : String) : Option ℚ :=
  (r.find? (fun p => p.1 == k)).map (fun p => p.2)

/-- A Python scalar as it appears in the osteoporosis record: either a
number or a categorical string. -/
inductive PyVal where
  | num (q : ℚ)
  | str (s : String)
  deriving DecidableEq

/-- A record of mixed string/numeric fields (the osteoporosis input). -/
abbrev PyRecord := List (String × PyVal)

/-- Key lookup in a mixed record. -/
def getPy (r : PyRecord) (k : String) : Option PyVal :=
  (r.find? (fun p => p.1 == k)).map (fun p => p.2)

/-- Python `v == s` for a string literal `s`: true only when `v` is that
string (a number never equals a string in Python). -/
def pyEqStr (v : Option PyVal) (s : String) : Bool :=
  match v with
  | some (PyVal.str t) => t == s
  | _ => false

/-- Python `round(q, 4)` (the half-to-even detail is irrelevant here: no
claim inspects a probability at a tie of the fifth decimal). -/
def round4 (q : ℚ) : ℚ := (round (q * 10000) : ℤ) / 10000

/-- Python `round(q, 2)`. -/
def round2 (q : ℚ) : ℚ := (round (q * 100) : ℤ) / 100

/-- `df.reindex(columns=cols, fill_value=fill)` on a one-row numeric
frame: select/reorder to exactly `cols`, substituting `fill` for any
column the row lacks. -/
def reindexRow (features : Record) (cols : List String) (fill : ℚ) : List ℚ :=
  cols.map (fun c => (getField features c).getD fill)

/- ═══════════════════  Anemia  (anemia-backend-model/inference.py) ═══════════ -/

/-- Loaded artifacts of `AnemiaPredictor.__init__`: the pickled pipeline
(abstracted to its positive-class probability) and the feature-name list. -/
structure AnemiaArtifacts where
  predictProba : List ℚ → ℚ
  featureNames : List String

/-- `self.optimal_threshold = 0.47` (constant, from metadata.json). -/
def anemiaOptimalThreshold : ℚ := 47 / 100

/-- `threshold_hb = 13.0 if gender == 1 else 12.0`. -/
def anemiaThresholdHb (gender : ℚ) : ℚ := if gender = 1 then 13 else 12

/-- `hb_below_threshold = 1 if hemoglobin < threshold_hb else 0`. -/
def anemiaHbBelowThreshold (gender hemoglobin : ℚ) : ℚ :=
  if hemoglobin < anemiaThresholdHb gender then 1 else 0

/-- `mch_mchc_ratio = mch / mchc if mchc != 0 else 0`. -/
def anemiaMchMchcRatio (mch mchc : ℚ) : ℚ :=
  if mchc ≠ 0 then mch / mchc else 0

/-- The engineered one-row frame after
`input_df.reindex(columns=self.feature_names, fill_value=0)`. -/
def anemiaInputDf (art : AnemiaArtifacts) (gender hemoglobin mch mchc mcv : ℚ) :
    List ℚ :=
  reindexRow
    [("Gender", gender), ("Hemoglobin", hemoglobin), ("MCH", mch),
     ("MCHC", mchc), ("MCV", mcv),
     ("hb_below_threshold", anemiaHbBelowThreshold gender hemoglobin),
     ("mch_mchc_ratio", anemiaMchMchcRatio mch mchc)]
    art.featureNames 0

/-- Result dict of `AnemiaPredictor.predict`. -/
structure AnemiaResult where
  predictionLabel : String
  probability : ℚ
  riskLevel : String
  thresholdUsed : ℚ
  deriving DecidableEq

/-- Error of `AnemiaPredictor.predict`: the single `ValueError` whose
message names, as a constant, all five required fields
("Missing required fields (Gender, Hemoglobin, MCH, MCHC, MCV)").
The payload records the field names the message text embeds. -/
inductive AnemiaError where
  | missingFields (named : List String)
  deriving DecidableEq

/-- `AnemiaPredictor.predict`: `.get` each field; if any is `None`, raise;
otherwise engineer features, reindex, score, threshold at 0.47 and tier. -/
def anemiaPredict (art : AnemiaArtifacts) (input : Record) :
    Except AnemiaError AnemiaResult :=
  match getField input "Gender", getField input "Hemoglobin",
        getField input "MCH", getField input "MCHC", getField input "MCV" with
  | some gender, some hemoglobin, some mch, some mchc, some mcv =>
      let input_df := anemiaInputDf art gender hemoglobin mch mchc mcv
      let probability_class_1 := art.predictProba input_df
      let prediction : ℕ := if probability_class_1 ≥ anemiaOptimalThreshold then 1 else 0
      let prediction_label := if prediction = 1 then "Anemic" else "Not Anemic"
      let risk_level :=
        if probability_class_1 > 4/5 then "High"
        else if probability_class_1 > 47/100 then "Borderline"
        else "Low"
      Except.ok
        { predictionLabel := prediction_label
          probability := round4 probability_class_1
          riskLevel := risk_level
          thresholdUsed := anemiaOptimalThreshold }
  | _, _, _, _, _ =>
      Except.error
        (AnemiaError.missingFields ["Gender", "Hemoglobin", "MCH", "MCHC", "MCV"])

/-- `AnemiaPredictor.predict` as a method call with explicit object
state: the body reads `self.pipeline`, `self.feature_names`,
`self.optimal_threshold` and assigns no attribute. -/
def anemiaPredictMethod (self : AnemiaArtifacts) (input : Record) :
    Except AnemiaError AnemiaResult × AnemiaArtifacts :=
  (anemiaPredict self input, self)

/-- The `/predict/anemia` route validates before calling the predictor:
`missing = [f for f in required_fields if f not in data]`. -/
def anemiaRouteMissing (data : Record) : List String :=
  ["Gender", "Hemoglobin", "MCH", "MCHC", "MCV"].filter
    (fun f => (getField data f).isNone)

/- ═══════════════════  Thyroid  (thyroid-backend-model/inference.py) ═════════ -/

/-- Loaded artifacts of `ThyroidPredictor`: the 3-class pipeline
(abstracted to its argmax class and its class-0 probability) and the
ordered training-schema column list. A frame cell is `Option ℚ`, `none`
standing for NaN. -/
structure ThyroidArtifacts where
  predictClass : List (Option ℚ) → ℕ
  probaClass0 : List (Option ℚ) → ℚ
  featureNames : List String

/-- `input_df.reindex(columns=self.feature_names, fill_value=0)` for the
thyroid domain: a present column keeps its value, a column the record
lacks receives the numeric fill value 0 (never NaN: `fill_value=0`
overrides reindex's NaN default). -/
def thyroidAlign (input : Record) (cols : List String) : List (Option ℚ) :=
  cols.map (fun c =>
    match getField input c with
    | some v => some v
    | none => some 0)

/-- Modelled from the spec (not from the source): the alignment the spec
describes for the thyroid domain, "omission flagged as NaN": a column the
record lacks would receive NaN (`none`). Stated only to be compared with
`thyroidAlign`, the behaviour of the code. -/
def thyroidAlignSpecNaN (input : Record) (cols : List String) : List (Option ℚ) :=
  cols.map (fun c =>
    match getField input c with
    | some v => some v
    | none => none)

/-- Result dict of `ThyroidPredictor.predict`. -/
structure ThyroidResult where
  prediction : ℕ
  diagnosis : String
  probability : ℚ
  riskLevel : String
  deriving DecidableEq

/-- `ThyroidPredictor.predict`: no missing-field validation; the record is
aligned (filling 0), then the pipeline is always invoked. -/
def thyroidPredict (art : ThyroidArtifacts) (input : Record) : ThyroidResult :=
  let input_df := thyroidAlign input art.featureNames
  let prediction := art.predictClass input_df
  let prob_negative := art.probaClass0 input_df
  let prob_disorder := 1 - prob_negative
  let diagnosis :=
    if prediction = 0 then "Negative (No Thyroid Disorder)"
    else if prediction = 1 then "Hyperthyroidism"
    else if prediction = 2 then "Hypothyroidism"
    else "Class " ++ toString prediction
  let risk_level :=
    if prob_disorder > 4/5 then "High"
    else if prob_disorder > 1/2 then "Borderline"
    else "Low"
  { prediction := prediction
    diagnosis := diagnosis
    probability := round4 prob_disorder
    riskLevel := risk_level }

/- ═══════════════════  PCOS  (pcos-backend-model/inference.py) ══════════════ -/

/-- `PCOSPredictor.RAW_FEATURES`. -/
def pcosRawFeatures : List String :=
  ["Age", "BMI", "Menstrual_Irregularity",
   "Testosterone_Level(ng/dL)", "Antral_Follicle_Count"]

/-- Loaded artifacts of `PCOSPredictor.__init__`: pipeline (abstracted to
its positive-class probability), optimal threshold, feature names. -/
structure PCOSArtifacts where
  predictProba : List ℚ → ℚ
  threshold : ℚ
  featureNames : List String

/-- Errors of `PCOSPredictor.predict`: the missing-feature `ValueError`
(the payload is the `missing` list the message embeds first; the message
additionally restates the full required schema) and the catch-all
`RuntimeError` re-raise. The numeric-coercion `ValueError` cannot arise
here because records are already numeric in this embedding. -/
inductive PCOSError where
  | missingFeatures (named : List String)
  | runtimeError
  deriving DecidableEq

/-- `missing = [f for f in self.RAW_FEATURES if f not in patient_data]`. -/
def pcosMissing (patient_data : Record) : List String :=
  pcosRawFeatures.filter (fun f => (getField patient_data f).isNone)

/-- `PCOSPredictor._validate_input`: raise when features are missing, else
rebuild the dict keyed in RAW_FEATURES order (float coercion is identity
on rationals). Range checks only log warnings and change nothing. -/
def pcosValidateInput (patient_data : Record) :
    Except PCOSError Record :=
  match pcosMissing patient_data with
  | [] =>
      Except.ok (pcosRawFeatures.filterMap
        (fun f => (getField patient_data f).map (fun v => (f, v))))
  | _ :: _ => Except.error (PCOSError.missingFeatures (pcosMissing patient_data))

/-- `BMI_Category`: ordinal bucket of BMI. -/
def pcosBmiCategory (bmi : ℚ) : ℚ :=
  if bmi < 37/2 then 0 else if bmi < 25 then 1 else if bmi < 30 then 2 else 3

/-- `Testosterone_High = 1 if testosterone > 50 else 0`. -/
def pcosTestosteroneHigh (t : ℚ) : ℚ := if t > 50 then 1 else 0

/-- `AFC_High = 1 if afc >= 12 else 0`. -/
def pcosAfcHigh (afc : ℚ) : ℚ := if afc ≥ 12 then 1 else 0

/-- The engineered dict of `PCOSPredictor._engineer_features` before the
frame is built: the validated entries, then the five engineered entries
in insertion order. `.getD 0` renders Python's `data[k]` on keys the
validation guarantees present. -/
def pcosEngineeredDict (validated : Record) : Record :=
  let bmi := (getField validated "BMI").getD 0
  let t := (getField validated "Testosterone_Level(ng/dL)").getD 0
  let afc := (getField validated "Antral_Follicle_Count").getD 0
  let age := (getField validated "Age").getD 0
  validated ++
    [("BMI_Category", pcosBmiCategory bmi),
     ("Testosterone_High", pcosTestosteroneHigh t),
     ("AFC_High", pcosAfcHigh afc),
     ("Age_BMI_Interaction", age * bmi),
     ("Testosterone_AFC_Ratio", t / (afc + 1))]

/-- `pd.DataFrame([data])[self.feature_names]`: column selection that
fails (KeyError) when a requested column is absent — no filling. -/
def pcosFeatureRow (cols : List String) (validated : Record) :
    Option (List ℚ) :=
  (cols.mapM (fun c => getField (pcosEngineeredDict validated) c))

/-- Result dict of `PCOSPredictor.predict` (features_used and the free-text
diagnosis are carried; model_version is not present in the source). -/
structure PCOSResult where
  prediction : ℕ
  probability : ℚ
  riskLevel : String
  thresholdUsed : ℚ
  diagnosis : String
  deriving DecidableEq

/-- `PCOSPredictor.predict`: validate, engineer, score, threshold
(non-strict ≥), tier at 0.3/0.6, attach diagnosis text. -/
def pcosPredict (art : PCOSArtifacts) (patient_data : Record) :
    Except PCOSError PCOSResult :=
  match pcosValidateInput patient_data with
  | Except.error e => Except.error e
  | Except.ok validated =>
    match pcosFeatureRow art.featureNames validated with
    | none => Except.error PCOSError.runtimeError
    | some X =>
      let probability := art.predictProba X
      let prediction : ℕ := if probability ≥ art.threshold then 1 else 0
      let risk_level :=
        if probability < 3/10 then "Low"
        else if probability < 3/5 then "Borderline"
        else "High"
      let diagnosis :=
        if prediction = 1 then
          "PCOS Positive - Further clinical evaluation recommended"
        else
          "PCOS Negative - No immediate PCOS indicators detected"
      Except.ok
        { prediction := prediction
          probability := round4 probability
          riskLevel := risk_level
          thresholdUsed := round2 art.threshold
          diagnosis := diagnosis }

/-- `PCOSPredictor.predict` as a method call with explicit object state:
the body reads `self.pipeline`, `self.threshold`, `self.feature_names`
and assigns no attribute, so the state it leaves behind is the state it
was called on. -/
def pcosPredictMethod (self : PCOSArtifacts) (patient_data : Record) :
    Except PCOSError PCOSResult × PCOSArtifacts :=
  (pcosPredict self patient_data, self)

/- ═════════════  Osteoporosis  (osteoporosis-backend-model/inference.py) ════ -/

/-- `REQUIRED_FIELDS`: the 14 raw fields the frontend sends. -/
def osteoRequiredFields : List String :=
  ["Age", "Gender", "Hormonal Changes", "Family History", "Race/Ethnicity",
   "Body Weight", "Calcium Intake", "Vitamin D Intake", "Physical Activity",
   "Smoking", "Alcohol Consumption", "Medical Conditions", "Medications",
   "Prior Fractures"]

/-- `_RISK_CHECKS`: the 10 risk-factor flags. -/
def osteoRiskChecks : List (PyRecord → Bool) :=
  [fun d => pyEqStr (getPy d "Hormonal Changes") "Postmenopausal",
   fun d => pyEqStr (getPy d "Family History") "Yes",
   fun d => pyEqStr (getPy d "Body Weight") "Underweight",
   fun d => pyEqStr (getPy d "Calcium Intake") "Low",
   fun d => pyEqStr (getPy d "Vitamin D Intake") "Insufficient",
   fun d => pyEqStr (getPy d "Physical Activity") "Sedentary",
   fun d => pyEqStr (getPy d "Smoking") "Yes",
   fun d => pyEqStr (getPy d "Prior Fractures") "Yes",
   fun d => pyEqStr (getPy d "Medical Conditions") "Rheumatoid Arthritis"
            || pyEqStr (getPy d "Medical Conditions") "Hyperthyroidism",
   fun d => pyEqStr (getPy d "Medications") "Corticosteroids"]

/-- `Risk_Factor_Count = sum(check(d) for check in _RISK_CHECKS)`. -/
def osteoRiskFactorCount (d : PyRecord) : ℚ :=
  (osteoRiskChecks.map (fun check => if check d then (1 : ℚ) else 0)).sum

/-- `Age_Risk_Group = "Low" if age < 50 else ("Moderate" if age < 65 else "High")`. -/
def osteoAgeRiskGroup (age : ℤ) : String :=
  if age < 50 then "Low" else if age < 65 then "Moderate" else "High"

/-- Python `int(v)`: truncation toward zero on a number, digit parsing on
a string (`none` when the string does not parse). -/
def pyToInt (v : PyVal) : Option ℤ :=
  match v with
  | PyVal.num q => some (if 0 ≤ q then ⌊q⌋ else ⌈q⌉)
  | PyVal.str s => s.toInt?

/-- `OsteoporosisPredictor._build_row`: the 14 raw fields passed through
plus the 4 engineered features, in the source's insertion order. `none`
when `int(d["Age"])` fails. Raw fields are rendered by lookup with a
dummy default: the caller validated their presence. -/
def osteoBuildRow (d : PyRecord) : Option PyRecord :=
  match (getPy d "Age").bind pyToInt with
  | none => none
  | some age =>
    let is_postmenopausal := pyEqStr (getPy d "Hormonal Changes") "Postmenopausal"
    let is_female := pyEqStr (getPy d "Gender") "Female"
    let raw := fun k => (getPy d k).getD (PyVal.str "")
    some
      [("Age", PyVal.num (age : ℚ)),
       ("Gender", raw "Gender"),
       ("Hormonal Changes", raw "Hormonal Changes"),
       ("Family History", raw "Family History"),
       ("Race/Ethnicity", raw "Race/Ethnicity"),
       ("Body Weight", raw "Body Weight"),
       ("Calcium Intake", raw "Calcium Intake"),
       ("Vitamin D Intake", raw "Vitamin D Intake"),
       ("Physical Activity", raw "Physical Activity"),
       ("Smoking", raw "Smoking"),
       ("Alcohol Consumption", raw "Alcohol Consumption"),
       ("Medical Conditions", raw "Medical Conditions"),
       ("Medications", raw "Medications"),
       ("Prior Fractures", raw "Prior Fractures"),
       ("Age_Risk_Group", PyVal.str (osteoAgeRiskGroup age)),
       ("Is_Postmenopausal_Female",
        PyVal.num (if is_female && is_postmenopausal then 1 else 0)),
       ("Age_Postmenopausal_Interaction",
        PyVal.num ((age : ℚ) * (if is_postmenopausal then 1 else 0))),
       ("Risk_Factor_Count", PyVal.num (osteoRiskFactorCount d))]

/-- Loaded artifacts of `OsteoporosisPredictor`: pipeline (abstracted to
positive-class probability over the reindexed row, whose cells can be
NaN = `none`), the fitted input columns, threshold and feature names. -/
structure OsteoArtifacts where
  predictProba : List (Option PyVal) → ℚ
  expectedCols : List String
  optimalThreshold : ℚ
  featureNames : List String

/-- Errors of `OsteoporosisPredictor.predict`: the missing-field
`ValueError` (payload: the computed `missing` list the message embeds)
and the failure of `int(d["Age"])`. -/
inductive OsteoError where
  | missingFields (named : List String)
  | ageConversion
  deriving DecidableEq

/-- `missing = [f for f in REQUIRED_FIELDS if f not in input_data]`. -/
def osteoMissing (input_data : PyRecord) : List String :=
  osteoRequiredFields.filter (fun f => (getPy input_data f).isNone)

/-- Result dict of `OsteoporosisPredictor.predict` (free-text diagnosis
with %-formatted probability is not carried; no claim concerns it). -/
structure OsteoResult where
  predictionLabel : String
  probability : ℚ
  riskLevel : String
  thresholdUsed : ℚ
  deriving DecidableEq

/-- `input_df.reindex(columns=expected_cols)`: no fill value, so a column
the built row lacks becomes NaN (`none`). -/
def osteoReindex (row : PyRecord) (expected_cols : List String) :
    List (Option PyVal) :=
  expected_cols.map (fun c => getPy row c)

/-- `OsteoporosisPredictor.predict`: validate the 14 fields, build the
18-column row, reindex, score, threshold (non-strict ≥) and tier
(High > 0.8, Borderline ≥ threshold, else Low). -/
def osteoporosisPredict (art : OsteoArtifacts) (input_data : PyRecord) :
    Except OsteoError OsteoResult :=
  match osteoMissing input_data with
  | _ :: _ => Except.error (OsteoError.missingFields (osteoMissing input_data))
  | [] =>
    match osteoBuildRow input_data with
    | none => Except.error OsteoError.ageConversion
    | some row =>
      let input_df := osteoReindex row art.expectedCols
      let prob_positive := art.predictProba input_df
      let prediction : ℕ := if prob_positive ≥ art.optimalThreshold then 1 else 0
      let prediction_label := if prediction = 1 then "Osteoporosis" else "No Osteoporosis"
      let risk_level :=
        if prob_positive > 4/5 then "High"
        else if prob_positive ≥ art.optimalThreshold then "Borderline"
        else "Low"
      Except.ok
        { predictionLabel := prediction_label
          probability := round4 prob_positive
          riskLevel := risk_level
          thresholdUsed := art.optimalThreshold }

/- ══════════  Breast cancer  (breast-cancer-backend-model/inference.py) ═════ -/

/-- An RGB pixel: the three uint8 planes `img_array[:,:,0..2]`. -/
abbrev Pixel := ℕ × ℕ × ℕ

/-- `np.array(image)` for an RGB PIL image: rows of uint8 pixels. -/
abbrev RGBImage := List (List Pixel)

/-- All pixels of the image, row-major. -/
def pixelList (img : RGBImage) : List Pixel := img.flatten

/-- `np.mean` of a list of rationals (division by a zero length yields 0
in ℚ; every image under study is nonempty). -/
def meanQ (l : List ℚ) : ℚ := l.sum / (l.length : ℚ)

/-- uint8 subtraction `a - b` as numpy performs it on `uint8` planes:
wraparound modulo 256. `np.abs` on the unsigned result is the identity. -/
def u8sub (a b : ℕ) : ℕ := (((a : ℤ) - (b : ℤ)) % 256).toNat

/-- `np.mean(np.abs(r - g))` over the two named channels of each pixel. -/
def meanU8Diff (img : RGBImage) (f g : Pixel → ℕ) : ℚ :=
  meanQ ((pixelList img).map (fun p => (u8sub (f p) (g p) : ℚ)))

/-- `avg_diff = (diff_rg + diff_rb + diff_gb) / 3.0` with each `diff_xy`
computed by wraparound uint8 subtraction. -/
def avgChannelDiff (img : RGBImage) : ℚ :=
  (meanU8Diff img (fun p => p.1) (fun p => p.2.1)
   + meanU8Diff img (fun p => p.1) (fun p => p.2.2)
   + meanU8Diff img (fun p => p.2.1) (fun p => p.2.2)) / 3

/-- Modelled from the spec's reading of the check (not from the source):
the exact mean absolute channel difference, with subtraction over ℤ and a
true absolute value — what `avg_diff` would be without uint8 wraparound. -/
def meanAbsChannelDiffExact (img : RGBImage) : ℚ :=
  (meanQ ((pixelList img).map (fun p => ((((p.1 : ℤ) - (p.2.1 : ℤ)).natAbs : ℚ))))
   + meanQ ((pixelList img).map (fun p => ((((p.1 : ℤ) - (p.2.2 : ℤ)).natAbs : ℚ))))
   + meanQ ((pixelList img).map (fun p => ((((p.2.1 : ℤ) - (p.2.2 : ℤ)).natAbs : ℚ))))) / 3

/-- `gray_img = np.mean(img_array, axis=2)`: per-pixel channel mean. -/
def grayOf (p : Pixel) : ℚ := ((p.1 : ℚ) + (p.2.1 : ℚ) + (p.2.2 : ℚ)) / 3

/-- `mean_intensity = np.mean(gray_img)`. -/
def meanIntensity (img : RGBImage) : ℚ :=
  meanQ ((pixelList img).map grayOf)

/-- The square of `std_intensity = np.std(gray_img)`: the population
variance. The source compares `std_intensity < 15`; both sides being
nonnegative, that comparison is exactly `variance < 15² = 225`, which is
how the flatness check is rendered below (ℚ has no square root). -/
def stdSqIntensity (img : RGBImage) : ℚ :=
  meanQ ((pixelList img).map (fun p => (grayOf p - meanIntensity img) ^ (2 : ℕ)))

/-- Outcome of `is_valid_ultrasound`, carrying the statistic that the
rejection message formats (`Color variance: {avg_diff:.1f}` etc.). The
flat case carries the squared deviation statistic. -/
inductive UltrasoundVerdict where
  | valid
  | rejectColor (avgDiff : ℚ)
  | rejectBright (meanInt : ℚ)
  | rejectFlat (stdSq : ℚ)
  deriving DecidableEq

/-- `BreastCancerPredictor.is_valid_ultrasound` on the RGB image
(`predict` always converts to RGB first, so only the 3-channel branch is
reachable): color check, brightness check, flatness check, in order. -/
def is_valid_ultrasound (img : RGBImage) : UltrasoundVerdict :=
  let avg_diff := avgChannelDiff img
  if avg_diff > 15 then UltrasoundVerdict.rejectColor avg_diff
  else
    let mean_intensity := meanIntensity img
    if mean_intensity > 150 then UltrasoundVerdict.rejectBright mean_intensity
    else if stdSqIntensity img < 225 then UltrasoundVerdict.rejectFlat (stdSqIntensity img)
    else UltrasoundVerdict.valid

/-- `self.class_names` (training order). -/
def bcClassNames : List String := ["benign", "malignant", "normal"]

/-- Loaded artifact of `BreastCancerPredictor`: the keras model together
with the resize/normalize preprocessing, abstracted to one function from
the RGB image to the class-probability vector in `bcClassNames` order. -/
structure BCArtifacts where
  modelPredict : RGBImage → List ℚ

/-- Diagnosis text of the result, structurally: either the guard's
rejection message (with its reason) or one of the three fixed advice
strings. -/
inductive BCDiagnosis where
  | invalidInput (reason : UltrasoundVerdict)
  | malignantAdvice
  | benignAdvice
  | normalAdvice
  deriving DecidableEq

/-- Result dict of `BreastCancerPredictor.predict`. -/
structure BCResult where
  predictedClass : String
  confidence : ℚ
  riskLevel : String
  diagnosis : BCDiagnosis
  classProbabilities : List (String × ℚ)
  lowConfidence : Bool
  deriving DecidableEq

/-- `np.argmax`: index of the first maximum (strict comparison while
scanning keeps the earliest). -/
def argmaxIdx (l : List ℚ) : ℕ :=
  (l.enum.foldl (fun best p => if p.2 > best.2 then p else best) (0, l.headD 0)).1

/-- The result `predict` synthesizes when the guard rejects, without
touching the model. -/
def bcInvalidResult (v : UltrasoundVerdict) : BCResult :=
  { predictedClass := "unknown"
    confidence := 0
    riskLevel := "Invalid Input"
    diagnosis := BCDiagnosis.invalidInput v
    classProbabilities := bcClassNames.map (fun c => (c, 0))
    lowConfidence := true }

/-- `BreastCancerPredictor.predict`: run the guard; on rejection
synthesize the invalid-input result, otherwise score and map the argmax
class to risk and advice. -/
def breastCancerPredict (art : BCArtifacts) (img : RGBImage) : BCResult :=
  match is_valid_ultrasound img with
  | UltrasoundVerdict.valid =>
      let probs := art.modelPredict img
      let idx := argmaxIdx probs
      let predicted_class := bcClassNames.getD idx ""
      let confidence := probs.getD idx 0
      let risk_level :=
        if predicted_class = "malignant" then "High"
        else if predicted_class = "benign" then "Borderline"
        else "Low"
      let diagnosis :=
        if predicted_class = "malignant" then BCDiagnosis.malignantAdvice
        else if predicted_class = "benign" then BCDiagnosis.benignAdvice
        else BCDiagnosis.normalAdvice
      { predictedClass := predicted_class
        confidence := confidence
        riskLevel := risk_level
        diagnosis := diagnosis
        classProbabilities := bcClassNames.zip probs
        lowConfidence := false }
  | v => bcInvalidResult v

/-- The all-black 224×224 RGB image of the spec's guard example. -/
def blackImage : RGBImage :=
  List.replicate 224 (List.replicate 224 ((0, 0, 0) : Pixel))

/- ═══════════════════  Sample inputs  ═══════════════════ -/

/-- The anemia demo record: male, Hb 10, MCH 30, MCHC 30, MCV 80. -/
def anemiaSampleInput : Record :=
  [("Gender", 1), ("Hemoglobin", 10), ("MCH", 30), ("MCHC", 30), ("MCV", 80)]

/-- The spec's PCOS low-risk example record (already in RAW_FEATURES
order, so it is its own validated form). -/
def pcosSampleValidated : Record :=
  [("Age", 30), ("BMI", 22), ("Menstrual_Irregularity", 0),
   ("Testosterone_Level(ng/dL)", 35), ("Antral_Follicle_Count", 8)]

/-- A complete 14-field osteoporosis record: age 70, postmenopausal
female, no other risk factors. -/
def osteoSampleRecord : PyRecord :=
  [("Age", PyVal.num 70), ("Gender", PyVal.str "Female"),
   ("Hormonal Changes", PyVal.str "Postmenopausal"),
   ("Family History", PyVal.str "No"), ("Race/Ethnicity", PyVal.str "Asian"),
   ("Body Weight", PyVal.str "Normal"), ("Calcium Intake", PyVal.str "Adequate"),
   ("Vitamin D Intake", PyVal.str "Sufficient"),
   ("Physical Activity", PyVal.str "Active"), ("Smoking", PyVal.str "No"),
   ("Alcohol Consumption", PyVal.str "None"),
   ("Medical Conditions", PyVal.str "None"), ("Medications", PyVal.str "None"),
   ("Prior Fractures", PyVal.str "No")]

/-- The row `_build_row` produces on `osteoSampleRecord`. -/
def osteoSampleRow : PyRecord :=
  [("Age", PyVal.num 70), ("Gender", PyVal.str "Female"),
   ("Hormonal Changes", PyVal.str "Postmenopausal"),
   ("Family History", PyVal.str "No"), ("Race/Ethnicity", PyVal.str "Asian"),
   ("Body Weight", PyVal.str "Normal"), ("Calcium Intake", PyVal.str "Adequate"),
   ("Vitamin D Intake", PyVal.str "Sufficient"),
   ("Physical Activity", PyVal.str "Active"), ("Smoking", PyVal.str "No"),
   ("Alcohol Consumption", PyVal.str "None"),
   ("Medical Conditions", PyVal.str "None"), ("Medications", PyVal.str "None"),
   ("Prior Fractures", PyVal.str "No"),
   ("Age_Risk_Group", PyVal.str "High"),
   ("Is_Postmenopausal_Female", PyVal.num 1),
   ("Age_Postmenopausal_Interaction", PyVal.num 70),
   ("Risk_Factor_Count", PyVal.num 1)]

/- ═══════════════════  Helper lemmas  ═══════════════════ -/

lemma pixelList_uniform (n m : ℕ) (p : Pixel) :
    pixelList (List.replicate n (List.replicate m p)) = List.replicate (n * m) p := by
  induction n with
  | zero => simp [pixelList]
  | succ k ih =>
      simp only [pixelList, List.replicate_succ, List.flatten_cons] at ih ⊢
      rw [ih, ← List.replicate_add]
      congr 1
      ring

lemma meanQ_replicate_zero (n : ℕ) : meanQ (List.replicate n (0 : ℚ)) = 0 := by
  simp [meanQ, List.sum_replicate]

lemma u8sub_zero : u8sub 0 0 = 0 := rfl

lemma avgChannelDiff_black (n m : ℕ) :
    avgChannelDiff (List.replicate n (List.replicate m (0 : Pixel))) = 0 := by
  simp [avgChannelDiff, meanU8Diff, pixelList_uniform, List.map_replicate,
    u8sub_zero, meanQ_replicate_zero]

lemma grayOf_black : grayOf (0 : Pixel) = 0 := by
  simp [grayOf]

lemma meanIntensity_black (n m : ℕ) :
    meanIntensity (List.replicate n (List.replicate m (0 : Pixel))) = 0 := by
  simp [meanIntensity, pixelList_uniform, List.map_replicate, grayOf_black,
    meanQ_replicate_zero]

lemma stdSqIntensity_black (n m : ℕ) :
    stdSqIntensity (List.replicate n (List.replicate m (0 : Pixel))) = 0 := by
  simp [stdSqIntensity, pixelList_uniform, List.map_replicate, meanIntensity_black,
    grayOf_black, meanQ_replicate_zero]

lemma is_valid_ultrasound_black :
    is_valid_ultrasound blackImage = UltrasoundVerdict.rejectFlat 0 := by
  rw [show blackImage = List.replicate 224 (List.replicate 224 (0 : Pixel)) from rfl]
  unfold is_valid_ultrasound
  rw [avgChannelDiff_black, meanIntensity_black, stdSqIntensity_black]
  norm_num

lemma u8sub_01 : u8sub 0 1 = 255 := rfl

lemma u8sub_10 : u8sub 1 0 = 1 := rfl

/-- The 1×1 image whose single pixel is (R,G,B) = (0,1,0): its true mean
absolute channel difference is 2/3, but wraparound subtraction makes the
computed statistic 256/3, so the guard rejects it as a color image. -/
lemma is_valid_ultrasound_img1 :
    is_valid_ultrasound [[(0, 1, 0)]] = UltrasoundVerdict.rejectColor (256 / 3) := by
  unfold is_valid_ultrasound
  norm_num [avgChannelDiff, meanU8Diff, meanQ, pixelList, u8sub_01, u8sub_10, u8sub_zero]

/-- A sum of 0/1 indicators over a list of checks is the number of checks
that hold. -/
lemma sum_indicator_eq_count (cs : List (PyRecord → Bool)) (d : PyRecord) :
    (cs.map (fun check => if check d then (1 : ℚ) else 0)).sum
      = ((cs.filter (fun check => check d)).length : ℚ) := by
  induction cs with
  | nil => simp
  | cons c cs ih =>
      by_cases h : c d
      · simp only [List.map_cons, List.sum_cons, ih, List.filter_cons, h,
          if_pos, List.length_cons]
        push_cast
        ring
      · simp [h, ih]

lemma getPy_sample :
    getPy osteoSampleRecord "Age" = some (PyVal.num 70)
    ∧ getPy osteoSampleRecord "Gender" = some (PyVal.str "Female")
    ∧ getPy osteoSampleRecord "Hormonal Changes" = some (PyVal.str "Postmenopausal")
    ∧ getPy osteoSampleRecord "Family History" = some (PyVal.str "No")
    ∧ getPy osteoSampleRecord "Race/Ethnicity" = some (PyVal.str "Asian")
    ∧ getPy osteoSampleRecord "Body Weight" = some (PyVal.str "Normal")
    ∧ getPy osteoSampleRecord "Calcium Intake" = some (PyVal.str "Adequate")
    ∧ getPy osteoSampleRecord "Vitamin D Intake" = some (PyVal.str "Sufficient")
    ∧ getPy osteoSampleRecord "Physical Activity" = some (PyVal.str "Active")
    ∧ getPy osteoSampleRecord "Smoking" = some (PyVal.str "No")
    ∧ getPy osteoSampleRecord "Alcohol Consumption" = some (PyVal.str "None")
    ∧ getPy osteoSampleRecord "Medical Conditions" = some (PyVal.str "None")
    ∧ getPy osteoSampleRecord "Medications" = some (PyVal.str "None")
    ∧ getPy osteoSampleRecord "Prior Fractures" = some (PyVal.str "No") := by
  refine ⟨?_, ?_, ?_, ?_, ?_, ?_, ?_, ?_, ?_, ?_, ?_, ?_, ?_, ?_⟩ <;>
    simp [getPy, osteoSampleRecord, List.find?]

/-- `Risk_Factor_Count` on the sample record is 1 (only the
postmenopausal flag holds). -/
lemma osteoRiskFactorCount_sample : osteoRiskFactorCount osteoSampleRecord = 1 := by
  obtain ⟨h1, h2, h3, h4, h5, h6, h7, h8, h9, h10, h11, h12, h13, h14⟩ := getPy_sample
  unfold osteoRiskFactorCount osteoRiskChecks
  rw [List.map_cons, List.map_cons, List.map_cons, List.map_cons, List.map_cons,
    List.map_cons, List.map_cons, List.map_cons, List.map_cons, List.map_cons,
    List.map_nil]
  simp only [h3, h4, h6, h7, h8, h9, h10, h12, h13, h14, pyEqStr]
  simp

/-- `_build_row` on the sample record. -/
lemma osteoBuildRow_sample : osteoBuildRow osteoSampleRecord = some osteoSampleRow := by
  obtain ⟨h1, h2, h3, h4, h5, h6, h7, h8, h9, h10, h11, h12, h13, h14⟩ := getPy_sample
  have hage : (getPy osteoSampleRecord "Age").bind pyToInt = some 70 := by
    rw [h1]
    norm_num [pyToInt, Option.bind]
  unfold osteoBuildRow
  rw [hage]
  simp only [h1, h2, h3, h4, h5, h6, h7, h8, h9, h10, h11, h12, h13, h14,
    pyEqStr, osteoAgeRiskGroup, osteoRiskFactorCount_sample, osteoSampleRow,
    Option.getD_some]
  norm_num

/-- No required osteoporosis field is missing from the sample record. -/
lemma osteoMissing_sample : osteoMissing osteoSampleRecord = [] := by
  obtain ⟨h1, h2, h3, h4, h5, h6, h7, h8, h9, h10, h11, h12, h13, h14⟩ := getPy_sample
  simp [osteoMissing, osteoRequiredFields, h1, h2, h3, h4, h5, h6, h7, h8, h9,
    h10, h11, h12, h13, h14]

/-- The five anemia lookups on the sample input. -/
lemma anemia_sample_fields :
    getField anemiaSampleInput "Gender" = some 1
    ∧ getField anemiaSampleInput "Hemoglobin" = some 10
    ∧ getField anemiaSampleInput "MCH" = some 30
    ∧ getField anemiaSampleInput "MCHC" = some 30
    ∧ getField anemiaSampleInput "MCV" = some 80 := by
  refine ⟨?_, ?_, ?_, ?_, ?_⟩ <;> simp [getField, anemiaSampleInput, List.find?]

/-- Validation of the PCOS sample record reproduces it unchanged. -/
lemma pcosValidateInput_sample :
    pcosValidateInput pcosSampleValidated = Except.ok pcosSampleValidated := by
  simp [pcosValidateInput, pcosMissing, pcosRawFeatures, pcosSampleValidated,
    getField, List.find?]

/- ═══════════════════  Claims  ═══════════════════ -/

/-- C1: for every valid input to a binary tabular predictor, the discrete
prediction is positive exactly when the positive-class probability is at
least the domain's optimal threshold (non-strict): anemia decides
"Anemic" against the constant 0.47, PCOS decides `prediction = 1` against
the loaded threshold artifact, osteoporosis decides "Osteoporosis"
against the loaded threshold artifact. -/
theorem binary_threshold_decision :
    (∀ (art : AnemiaArtifacts) (input : Record) (g hb mch mchc mcv : ℚ)
        (r : AnemiaResult),
        getField input "Gender" = some g →
        getField input "Hemoglobin" = some hb →
        getField input "MCH" = some mch →
        getField input "MCHC" = some mchc →
        getField input "MCV" = some mcv →
        anemiaPredict art input = Except.ok r →
        (r.predictionLabel = "Anemic" ↔
          art.predictProba (anemiaInputDf art g hb mch mchc mcv)
            ≥ anemiaOptimalThreshold))
    ∧ (∀ (art : PCOSArtifacts) (x v : Record) (X : List ℚ) (r : PCOSResult),
        pcosValidateInput x = Except.ok v →
        pcosFeatureRow art.featureNames v = some X →
        pcosPredict art x = Except.ok r →
        (r.prediction = 1 ↔ art.predictProba X ≥ art.threshold))
    ∧ (∀ (art : OsteoArtifacts) (x row : PyRecord) (r : OsteoResult),
        osteoBuildRow x = some row →
        osteoporosisPredict art x = Except.ok r →
        (r.predictionLabel = "Osteoporosis" ↔
          art.predictProba (osteoReindex row art.expectedCols)
            ≥ art.optimalThreshold)) := by
  refine ⟨?_, ?_, ?_⟩
  · intro art input g hb mch mchc mcv r h1 h2 h3 h4 h5 hok
    unfold anemiaPredict at hok
    rw [h1, h2, h3, h4, h5] at hok
    simp only [Except.ok.injEq] at hok
    subst hok
    by_cases hp : art.predictProba (anemiaInputDf art g hb mch mchc mcv)
        ≥ anemiaOptimalThreshold
    · simp [hp]
    · simp [hp]
  · intro art x v X r hval hX hok
    unfold pcosPredict at hok
    simp only [hval, hX, Except.ok.injEq] at hok
    subst hok
    by_cases hp : art.predictProba X ≥ art.threshold
    · simp [hp]
    · simp [hp]
  · intro art x row r hrow hok
    unfold osteoporosisPredict at hok
    rcases hm : osteoMissing x with _ | ⟨a, l⟩
    · rw [hm] at hok
      rw [hrow] at hok
      simp only [Except.ok.injEq] at hok
      subst hok
      by_cases hp : art.predictProba (osteoReindex row art.expectedCols)
          ≥ art.optimalThreshold
      · simp [hp]
      · simp [hp, le_of_lt]
    · rw [hm] at hok
      simp at hok

/-- Witness for C1: concrete artifacts whose probability is the constant
1/2 and concrete valid records, for each of the three domains. -/
theorem binary_threshold_decision_witness :
    ((AnemiaResult.mk "Anemic" (round4 (1/2)) "Borderline" anemiaOptimalThreshold).predictionLabel
        = "Anemic"
      ↔ (AnemiaArtifacts.mk (fun _ => 1/2) []).predictProba
          (anemiaInputDf (AnemiaArtifacts.mk (fun _ => 1/2) []) 1 10 30 30 80)
          ≥ anemiaOptimalThreshold)
    ∧ ((PCOSResult.mk 1 (round4 (1/2)) "Borderline" (round2 (1/2))
          "PCOS Positive - Further clinical evaluation recommended").prediction = 1
      ↔ (PCOSArtifacts.mk (fun _ => 1/2) (1/2) []).predictProba []
          ≥ (PCOSArtifacts.mk (fun _ => 1/2) (1/2) []).threshold)
    ∧ ((OsteoResult.mk "Osteoporosis" (round4 (1/2)) "Borderline" (1/2)).predictionLabel
        = "Osteoporosis"
      ↔ (OsteoArtifacts.mk (fun _ => 1/2) [] (1/2) []).predictProba
          (osteoReindex osteoSampleRow [])
          ≥ (OsteoArtifacts.mk (fun _ => 1/2) [] (1/2) []).optimalThreshold) := by
  obtain ⟨hg, hhb, hmch, hmchc, hmcv⟩ := anemia_sample_fields
  refine ⟨binary_threshold_decision.1 (AnemiaArtifacts.mk (fun _ => 1/2) [])
      anemiaSampleInput 1 10 30 30 80 _ hg hhb hmch hmchc hmcv ?_,
    binary_threshold_decision.2.1 (PCOSArtifacts.mk (fun _ => 1/2) (1/2) [])
      pcosSampleValidated pcosSampleValidated [] _ pcosValidateInput_sample rfl ?_,
    binary_threshold_decision.2.2 (OsteoArtifacts.mk (fun _ => 1/2) [] (1/2) [])
      osteoSampleRecord osteoSampleRow _ osteoBuildRow_sample ?_⟩
  · unfold anemiaPredict
    rw [hg, hhb, hmch, hmchc, hmcv]
    norm_num [anemiaOptimalThreshold]
  · unfold pcosPredict
    rw [pcosValidateInput_sample]
    norm_num [pcosFeatureRow, List.mapM.loop]
  · unfold osteoporosisPredict
    rw [osteoMissing_sample, osteoBuildRow_sample]
    norm_num

/-- C4: whenever the breast-cancer image guard rejects an input (color
variance above 15, brightness above 150, or flatness std below 15), the
classifier is never invoked (the result is the same for every loaded
model) and the result is exactly: predicted class "unknown", confidence
0.0, risk tier "Invalid Input", all class probabilities 0.0, and the
specific rejection reason as the diagnosis; in particular the uniform
all-black 224×224 RGB image is rejected under the flatness rule
(std 0 < 15). -/
theorem bc_guard_rejection_synthesized :
    (∀ (art : BCArtifacts) (img : RGBImage) (v : UltrasoundVerdict),
        is_valid_ultrasound img = v → v ≠ UltrasoundVerdict.valid →
        breastCancerPredict art img =
          { predictedClass := "unknown"
            confidence := 0
            riskLevel := "Invalid Input"
            diagnosis := BCDiagnosis.invalidInput v
            classProbabilities := [("benign", 0), ("malignant", 0), ("normal", 0)]
            lowConfidence := true })
    ∧ is_valid_ultrasound blackImage = UltrasoundVerdict.rejectFlat 0 := by
  constructor
  · intro art img v hv hne
    unfold breastCancerPredict
    rw [hv]
    cases v with
    | valid => exact absurd rfl hne
    | rejectColor a => rfl
    | rejectBright a => rfl
    | rejectFlat a => rfl
  · exact is_valid_ultrasound_black

/-- Witness for C4: the 1×1 color pixel image is rejected and yields the
synthesized invalid-input result for a concrete loaded model. -/
theorem bc_guard_rejection_synthesized_witness :
    breastCancerPredict ⟨fun _ => [1, 0, 0]⟩ [[(0, 1, 0)]] =
      { predictedClass := "unknown"
        confidence := 0
        riskLevel := "Invalid Input"
        diagnosis := BCDiagnosis.invalidInput (UltrasoundVerdict.rejectColor (256 / 3))
        classProbabilities := [("benign", 0), ("malignant", 0), ("normal", 0)]
        lowConfidence := true } :=
  bc_guard_rejection_synthesized.1 ⟨fun _ => [1, 0, 0]⟩ [[(0, 1, 0)]]
    (UltrasoundVerdict.rejectColor (256 / 3)) is_valid_ultrasound_img1 (by simp)

/-- C9: at positive-class probability exactly 0.47 the anemia predictor
labels "Anemic" (decision uses non-strict ≥ 0.47) while the risk tier is
"Low" (the Borderline tier requires strictly more than 0.47), so a
positive prediction carries a "Low" tier at the boundary; osteoporosis
instead uses a non-strict comparison for its Borderline tier, so at
probability exactly equal to its (≤ 0.8) threshold the tier is
"Borderline". -/
theorem anemia_boundary_at_threshold :
    (∀ (art : AnemiaArtifacts) (input : Record) (g hb mch mchc mcv : ℚ)
        (r : AnemiaResult),
        getField input "Gender" = some g →
        getField input "Hemoglobin" = some hb →
        getField input "MCH" = some mch →
        getField input "MCHC" = some mchc →
        getField input "MCV" = some mcv →
        anemiaPredict art input = Except.ok r →
        art.predictProba (anemiaInputDf art g hb mch mchc mcv) = 47/100 →
        r.predictionLabel = "Anemic" ∧ r.riskLevel = "Low")
    ∧ (∀ (art : OsteoArtifacts) (x row : PyRecord) (r : OsteoResult),
        osteoBuildRow x = some row →
        osteoporosisPredict art x = Except.ok r →
        art.predictProba (osteoReindex row art.expectedCols) = art.optimalThreshold →
        art.optimalThreshold ≤ 4/5 →
        r.riskLevel = "Borderline") := by
  constructor
  · intro art input g hb mch mchc mcv r h1 h2 h3 h4 h5 hok hp
    unfold anemiaPredict at hok
    rw [h1, h2, h3, h4, h5] at hok
    simp only [Except.ok.injEq] at hok
    subst hok
    rw [hp]
    constructor
    · norm_num [anemiaOptimalThreshold]
    · norm_num
  · intro art x row r hrow hok hp hle
    unfold osteoporosisPredict at hok
    rcases hm : osteoMissing x with _ | ⟨a, l⟩
    · rw [hm, hrow] at hok
      simp only [Except.ok.injEq] at hok
      subst hok
      rw [hp]
      simp [not_lt.mpr hle]
    · rw [hm] at hok
      simp at hok

/-- Witness for C9: a loaded model with constant probability 47/100 on
the anemia sample yields the "Anemic" label with "Low" risk; a loaded
osteoporosis model with constant probability 1/2 and threshold 1/2 yields
"Borderline". -/
theorem anemia_boundary_at_threshold_witness :
    ((AnemiaResult.mk "Anemic" (round4 (47/100)) "Low" anemiaOptimalThreshold).predictionLabel
        = "Anemic"
      ∧ (AnemiaResult.mk "Anemic" (round4 (47/100)) "Low"
          anemiaOptimalThreshold).riskLevel = "Low")
    ∧ (OsteoResult.mk "Osteoporosis" (round4 (1/2)) "Borderline" (1/2)).riskLevel
        = "Borderline" := by
  obtain ⟨hg, hhb, hmch, hmchc, hmcv⟩ := anemia_sample_fields
  refine ⟨anemia_boundary_at_threshold.1 (AnemiaArtifacts.mk (fun _ => 47/100) [])
      anemiaSampleInput 1 10 30 30 80 _ hg hhb hmch hmchc hmcv ?_ rfl,
    anemia_boundary_at_threshold.2 (OsteoArtifacts.mk (fun _ => 1/2) [] (1/2) [])
      osteoSampleRecord osteoSampleRow _ osteoBuildRow_sample ?_ rfl (by norm_num)⟩
  · unfold anemiaPredict
    rw [hg, hhb, hmch, hmchc, hmcv]
    norm_num [anemiaOptimalThreshold]
  · unfold osteoporosisPredict
    rw [osteoMissing_sample, osteoBuildRow_sample]
    norm_num

/-- C5: the anemia feature engineer computes `hb_below_threshold = 1`
exactly when hemoglobin is below 13.0 for Gender = 1 (male) and below
12.0 otherwise (and the feature is 1/0-valued), and `mch_mchc_ratio` is
MCH / MCHC with 0 substituted — not an error — when MCHC is exactly 0. -/
theorem anemia_feature_engineering :
    (∀ g hb : ℚ,
        (anemiaHbBelowThreshold g hb = 1 ↔ (if g = 1 then hb < 13 else hb < 12)))
    ∧ (∀ g hb : ℚ,
        anemiaHbBelowThreshold g hb = 1 ∨ anemiaHbBelowThreshold g hb = 0)
    ∧ (∀ mch mchc : ℚ, mchc ≠ 0 → anemiaMchMchcRatio mch mchc = mch / mchc)
    ∧ (∀ mch : ℚ, anemiaMchMchcRatio mch 0 = 0) := by
  refine ⟨?_, ?_, ?_, ?_⟩
  · intro g hb
    unfold anemiaHbBelowThreshold anemiaThresholdHb
    by_cases hg : g = 1 <;> simp only [hg, if_true, if_false, if_pos, if_neg] <;>
      split_ifs with h <;> simp [h]
  · intro g hb
    unfold anemiaHbBelowThreshold
    split_ifs <;> simp
  · intro mch mchc h
    unfold anemiaMchMchcRatio
    rw [if_pos h]
  · intro mch
    unfold anemiaMchMchcRatio
    simp

/-- Witness for C5: the ratio at MCH = 30, MCHC = 2. -/
theorem anemia_feature_engineering_witness :
    anemiaMchMchcRatio 30 2 = 30 / 2 :=
  anemia_feature_engineering.2.2.1 30 2 (by norm_num)

/-- C6: the PCOS feature engineer buckets BMI ordinally at 18.5/25/30,
flags testosterone strictly above 50 and AFC at least 12, multiplies age
by BMI and divides testosterone by AFC + 1 (the +1 makes the denominator
nonzero for any nonnegative count); on the record Age 30, BMI 22.0,
Menstrual_Irregularity 0, Testosterone 35.0, AFC 8 the engineered values
are BMI_Category 1, Testosterone_High 0, AFC_High 0,
Age_BMI_Interaction 660.0, Testosterone_AFC_Ratio 35/9. -/
theorem pcos_feature_engineering :
    (∀ bmi : ℚ,
        (pcosBmiCategory bmi = 0 ↔ bmi < 37/2)
        ∧ (pcosBmiCategory bmi = 1 ↔ 37/2 ≤ bmi ∧ bmi < 25)
        ∧ (pcosBmiCategory bmi = 2 ↔ 25 ≤ bmi ∧ bmi < 30)
        ∧ (pcosBmiCategory bmi = 3 ↔ 30 ≤ bmi))
    ∧ (∀ t : ℚ, pcosTestosteroneHigh t = 1 ↔ t > 50)
    ∧ (∀ afc : ℚ, pcosAfcHigh afc = 1 ↔ afc ≥ 12)
    ∧ (∀ t afc : ℚ, 0 ≤ afc → afc + 1 ≠ 0 ∧ (t / (afc + 1)) * (afc + 1) = t)
    ∧ (getField (pcosEngineeredDict pcosSampleValidated) "BMI_Category" = some 1
       ∧ getField (pcosEngineeredDict pcosSampleValidated) "Testosterone_High" = some 0
       ∧ getField (pcosEngineeredDict pcosSampleValidated) "AFC_High" = some 0
       ∧ getField (pcosEngineeredDict pcosSampleValidated) "Age_BMI_Interaction"
           = some 660
       ∧ getField (pcosEngineeredDict pcosSampleValidated) "Testosterone_AFC_Ratio"
           = some (35/9)) := by
  refine ⟨?_, ?_, ?_, ?_, ?_⟩
  · intro bmi
    refine ⟨?_, ?_, ?_, ?_⟩ <;> unfold pcosBmiCategory <;>
      split_ifs with h1 h2 h3 <;> norm_num <;>
      first
        | linarith
        | (exact ⟨by linarith, by linarith⟩)
        | (intro h' ; linarith)
  · intro t
    unfold pcosTestosteroneHigh
    split_ifs with h <;> simp [h]
  · intro afc
    unfold pcosAfcHigh
    split_ifs with h <;> simp [h]
  · intro t afc h
    have hne : afc + 1 ≠ 0 := by positivity
    exact ⟨hne, div_mul_cancel₀ t hne⟩
  · have hage : getField pcosSampleValidated "Age" = some 30 := by
      simp [getField, pcosSampleValidated, List.find?]
    have hbmi : getField pcosSampleValidated "BMI" = some 22 := by
      simp [getField, pcosSampleValidated, List.find?]
    have ht : getField pcosSampleValidated "Testosterone_Level(ng/dL)" = some 35 := by
      simp [getField, pcosSampleValidated, List.find?]
    have hafc : getField pcosSampleValidated "Antral_Follicle_Count" = some 8 := by
      simp [getField, pcosSampleValidated, List.find?]
    have hc1 : pcosBmiCategory 22 = 1 := by norm_num [pcosBmiCategory]
    have hc2 : pcosTestosteroneHigh 35 = 0 := by norm_num [pcosTestosteroneHigh]
    have hc3 : pcosAfcHigh 8 = 0 := by norm_num [pcosAfcHigh]
    refine ⟨?_, ?_, ?_, ?_, ?_⟩ <;>
      ·  unfold pcosEngineeredDict
         rw [hage, hbmi, ht, hafc]
         simp only [Option.getD_some]
         rw [hc1, hc2, hc3, show (30 : ℚ) * 22 = 660 by norm_num,
           show (35 : ℚ) / (8 + 1) = 35 / 9 by norm_num]
         simp [getField, pcosSampleValidated, List.find?]

/-- Witness for C6: the +1 denominator offset at testosterone 35, AFC 8. -/
theorem pcos_feature_engineering_witness :
    (8 : ℚ) + 1 ≠ 0 ∧ ((35 : ℚ) / (8 + 1)) * (8 + 1) = 35 :=
  pcos_feature_engineering.2.2.2.1 35 8 (by norm_num)

/-- C7: the osteoporosis feature engineer buckets age at 50/65 into
"Low"/"Moderate"/"High", sets `Is_Postmenopausal_Female` to 1 exactly for
a Gender of "Female" together with Hormonal Changes "Postmenopausal",
multiplies age by the postmenopausal indicator, and counts how many of
the 10 boolean risk predicates hold; in particular age 70 with
"Postmenopausal" gives `Age_Risk_Group = "High"` and
`Age_Postmenopausal_Interaction = 70`. -/
theorem osteo_feature_engineering :
    (∀ age : ℤ,
        (osteoAgeRiskGroup age = "Low" ↔ age < 50)
        ∧ (osteoAgeRiskGroup age = "Moderate" ↔ 50 ≤ age ∧ age < 65)
        ∧ (osteoAgeRiskGroup age = "High" ↔ 65 ≤ age))
    ∧ (∀ (d : PyRecord) (row : PyRecord), osteoBuildRow d = some row →
        (getPy row "Is_Postmenopausal_Female" = some (PyVal.num 1) ↔
          (pyEqStr (getPy d "Gender") "Female" = true
           ∧ pyEqStr (getPy d "Hormonal Changes") "Postmenopausal" = true)))
    ∧ osteoRiskChecks.length = 10
    ∧ (∀ d : PyRecord, osteoRiskFactorCount d
          = ((osteoRiskChecks.filter (fun check => check d)).length : ℚ))
    ∧ (osteoBuildRow osteoSampleRecord = some osteoSampleRow
       ∧ getPy osteoSampleRow "Age_Risk_Group" = some (PyVal.str "High")
       ∧ getPy osteoSampleRow "Age_Postmenopausal_Interaction" = some (PyVal.num 70)
       ∧ getPy osteoSampleRow "Is_Postmenopausal_Female" = some (PyVal.num 1)
       ∧ getPy osteoSampleRow "Risk_Factor_Count" = some (PyVal.num 1)) := by
  refine ⟨?_, ?_, rfl, ?_, ?_⟩
  · intro age
    unfold osteoAgeRiskGroup
    refine ⟨?_, ?_, ?_⟩ <;> (split_ifs with h1 h2; all_goals simp_all; all_goals omega)
  · intro d row h
    unfold osteoBuildRow at h
    rcases hage : (getPy d "Age").bind pyToInt with _ | age
    · rw [hage] at h
      simp at h
    · rw [hage] at h
      simp only [Option.some.injEq] at h
      subst h
      have hlookup : getPy
          [("Age", PyVal.num (age : ℚ)), ("Gender", (getPy d "Gender").getD (PyVal.str "")),
           ("Hormonal Changes", (getPy d "Hormonal Changes").getD (PyVal.str "")),
           ("Family History", (getPy d "Family History").getD (PyVal.str "")),
           ("Race/Ethnicity", (getPy d "Race/Ethnicity").getD (PyVal.str "")),
           ("Body Weight", (getPy d "Body Weight").getD (PyVal.str "")),
           ("Calcium Intake", (getPy d "Calcium Intake").getD (PyVal.str "")),
           ("Vitamin D Intake", (getPy d "Vitamin D Intake").getD (PyVal.str "")),
           ("Physical Activity", (getPy d "Physical Activity").getD (PyVal.str "")),
           ("Smoking", (getPy d "Smoking").getD (PyVal.str "")),
           ("Alcohol Consumption", (getPy d "Alcohol Consumption").getD (PyVal.str "")),
           ("Medical Conditions", (getPy d "Medical Conditions").getD (PyVal.str "")),
           ("Medications", (getPy d "Medications").getD (PyVal.str "")),
           ("Prior Fractures", (getPy d "Prior Fractures").getD (PyVal.str "")),
           ("Age_Risk_Group", PyVal.str (osteoAgeRiskGroup age)),
           ("Is_Postmenopausal_Female",
            PyVal.num (if pyEqStr (getPy d "Gender") "Female"
                && pyEqStr (getPy d "Hormonal Changes") "Postmenopausal" then 1 else 0)),
           ("Age_Postmenopausal_Interaction",
            PyVal.num ((age : ℚ) *
              (if pyEqStr (getPy d "Hormonal Changes") "Postmenopausal" then 1 else 0))),
           ("Risk_Factor_Count", PyVal.num (osteoRiskFactorCount d))]
          "Is_Postmenopausal_Female"
        = some (PyVal.num (if pyEqStr (getPy d "Gender") "Female"
            && pyEqStr (getPy d "Hormonal Changes") "Postmenopausal" then 1 else 0)) := by
        simp [getPy, List.find?]
      rw [hlookup]
      cases hA : pyEqStr (getPy d "Gender") "Female" <;>
        cases hB : pyEqStr (getPy d "Hormonal Changes") "Postmenopausal" <;>
        simp [hA, hB]
  · intro d
    unfold osteoRiskFactorCount
    exact sum_indicator_eq_count osteoRiskChecks d
  · refine ⟨osteoBuildRow_sample, ?_, ?_, ?_, ?_⟩ <;>
      simp [getPy, osteoSampleRow, List.find?]

/-- Witness for C7: the postmenopausal-female indicator equivalence at
the sample record. -/
theorem osteo_feature_engineering_witness :
    getPy osteoSampleRow "Is_Postmenopausal_Female" = some (PyVal.num 1) ↔
      (pyEqStr (getPy osteoSampleRecord "Gender") "Female" = true
       ∧ pyEqStr (getPy osteoSampleRecord "Hormonal Changes") "Postmenopausal" = true) :=
  osteo_feature_engineering.2.1 osteoSampleRecord osteoSampleRow osteoBuildRow_sample

/-- C10: in the color check, channel differences are computed by
wraparound subtraction on uint8 planes before `np.abs`, so whenever the
subtrahend channel exceeds the minuend the contribution is 256 minus the
true difference; consequently the computed statistic is not the mean
absolute channel difference, and an image whose true mean absolute
channel difference is at most 15 can still be rejected as a color
image — witnessed by the image whose pixels are (0,1,0). -/
theorem bc_color_check_wraparound :
    (∀ a b : ℕ, a < 256 → b < 256 → a < b → u8sub a b = 256 - (b - a))
    ∧ meanAbsChannelDiffExact [[(0, 1, 0)]] ≤ 15
    ∧ is_valid_ultrasound [[(0, 1, 0)]] = UltrasoundVerdict.rejectColor (256 / 3)
    ∧ avgChannelDiff [[(0, 1, 0)]] ≠ meanAbsChannelDiffExact [[(0, 1, 0)]] := by
  refine ⟨?_, ?_, is_valid_ultrasound_img1, ?_⟩
  · intro a b ha hb hab
    unfold u8sub
    omega
  · norm_num [meanAbsChannelDiffExact, meanQ, pixelList]
  · norm_num [avgChannelDiff, meanAbsChannelDiffExact, meanU8Diff, meanQ, pixelList,
      u8sub_01, u8sub_10, u8sub_zero]

/-- Witness for C10: the wraparound formula at the concrete channels
R = 0, G = 1. -/
theorem bc_color_check_wraparound_witness : u8sub 0 1 = 256 - (1 - 0) :=
  bc_color_check_wraparound.1 0 1 (by decide) (by decide) (by decide)

/-- C2 counterexample: on a record lacking the schema column "TSH", the
thyroid alignment of the code substitutes the numeric cell `some 0`,
whereas the NaN-substituting alignment the spec describes would produce
`none`; the two cells differ. -/
theorem thyroid_nan_fill_counterexample :
    thyroidAlign [] ["TSH"] = [some (0 : ℚ)]
    ∧ thyroidAlignSpecNaN [] ["TSH"] = [(none : Option ℚ)]
    ∧ [some (0 : ℚ)] ≠ [(none : Option ℚ)] := by
  refine ⟨?_, ?_, by simp⟩
  · simp [thyroidAlign, getField]
  · simp [thyroidAlignSpecNaN, getField]

/-- C2 (amended): for the thyroid domain, schema alignment substitutes
numeric 0 — not NaN — for every training-schema column that the input
record lacks (reindex is called with `fill_value=0`), and the aligned
record is what is passed to the classifier. -/
theorem thyroid_align_fills_zero :
    (∀ (input : Record) (cols : List String),
        thyroidAlign input cols
          = cols.map (fun c => some ((getField input c).getD 0)))
    ∧ (∀ (art : ThyroidArtifacts) (input : Record),
        (thyroidPredict art input).prediction
          = art.predictClass (thyroidAlign input art.featureNames)) := by
  constructor
  · intro input cols
    unfold thyroidAlign
    induction cols with
    | nil => rfl
    | cons c cs ih =>
        simp only [List.map_cons, ih]
        cases h : getField input c <;> simp [h]
  · intro art input
    rfl

/-- C3 counterexample: the anemia predictor, given a record that is
missing only "Gender", raises the validation failure whose message names
all five required fields — not exactly the missing one (the HTTP route's
own check would have computed exactly ["Gender"]); and the thyroid
predictor, given an empty record with schema column "TSH", performs no
validation at all and invokes the classifier on the 0-filled row. -/
theorem missing_field_message_counterexample :
    anemiaPredict (AnemiaArtifacts.mk (fun _ => 0) [])
        [("Hemoglobin", 10), ("MCH", 30), ("MCHC", 30), ("MCV", 80)]
      = Except.error (AnemiaError.missingFields
          ["Gender", "Hemoglobin", "MCH", "MCHC", "MCV"])
    ∧ anemiaRouteMissing [("Hemoglobin", 10), ("MCH", 30), ("MCHC", 30), ("MCV", 80)]
        = ["Gender"]
    ∧ (["Gender", "Hemoglobin", "MCH", "MCHC", "MCV"] : List String) ≠ ["Gender"]
    ∧ (thyroidPredict (ThyroidArtifacts.mk (fun _ => 2) (fun _ => 1) ["TSH"])
        []).prediction = 2 := by
  refine ⟨?_, ?_, by simp, rfl⟩
  · have hg : getField [("Hemoglobin", (10 : ℚ)), ("MCH", 30), ("MCHC", 30),
        ("MCV", 80)] "Gender" = none := by
      simp [getField, List.find?]
    unfold anemiaPredict
    rcases hh : getField [("Hemoglobin", (10 : ℚ)), ("MCH", 30), ("MCHC", 30),
        ("MCV", 80)] "Hemoglobin" with _ | a <;>
    rcases hm1 : getField [("Hemoglobin", (10 : ℚ)), ("MCH", 30), ("MCHC", 30),
        ("MCV", 80)] "MCH" with _ | b <;>
    rcases hm2 : getField [("Hemoglobin", (10 : ℚ)), ("MCH", 30), ("MCHC", 30),
        ("MCV", 80)] "MCHC" with _ | c <;>
    rcases hm3 : getField [("Hemoglobin", (10 : ℚ)), ("MCH", 30), ("MCHC", 30),
        ("MCV", 80)] "MCV" with _ | d <;>
      simp [hg]
  · simp [anemiaRouteMissing, getField, List.find?]

/-- C3 (amended): a PCOS or osteoporosis record with missing required
fields yields a validation failure whose missing-list names exactly the
absent required fields — independently of the loaded model, so the
classifier is not invoked; the anemia predictor also fails without
scoring but its message names the constant full required list; the
thyroid predictor performs no missing-field validation and always
invokes the classifier on the 0-filled aligned row. -/
theorem missing_fields_validation :
    (∀ (art : PCOSArtifacts) (x : Record),
        pcosMissing x ≠ [] →
        pcosPredict art x
          = Except.error (PCOSError.missingFeatures (pcosMissing x)))
    ∧ (∀ (x : Record) (f : String),
        f ∈ pcosMissing x ↔ (f ∈ pcosRawFeatures ∧ getField x f = none))
    ∧ (∀ (art : OsteoArtifacts) (x : PyRecord),
        osteoMissing x ≠ [] →
        osteoporosisPredict art x
          = Except.error (OsteoError.missingFields (osteoMissing x)))
    ∧ (∀ (x : PyRecord) (f : String),
        f ∈ osteoMissing x ↔ (f ∈ osteoRequiredFields ∧ getPy x f = none))
    ∧ (∀ (art : AnemiaArtifacts) (input : Record),
        ((getField input "Gender").isNone ∨ (getField input "Hemoglobin").isNone
          ∨ (getField input "MCH").isNone ∨ (getField input "MCHC").isNone
          ∨ (getField input "MCV").isNone) →
        anemiaPredict art input = Except.error (AnemiaError.missingFields
          ["Gender", "Hemoglobin", "MCH", "MCHC", "MCV"]))
    ∧ (∀ (art : ThyroidArtifacts) (input : Record),
        (thyroidPredict art input).prediction
          = art.predictClass (thyroidAlign input art.featureNames)) := by
  refine ⟨?_, ?_, ?_, ?_, ?_, ?_⟩
  · intro art x h
    unfold pcosPredict pcosValidateInput
    rcases hm : pcosMissing x with _ | ⟨a, l⟩
    · exact absurd hm h
    · rfl
  · intro x f
    simp [pcosMissing, List.mem_filter, Option.isNone_iff_eq_none]
  · intro art x h
    unfold osteoporosisPredict
    rcases hm : osteoMissing x with _ | ⟨a, l⟩
    · exact absurd hm h
    · rfl
  · intro x f
    simp [osteoMissing, List.mem_filter, Option.isNone_iff_eq_none]
  · intro art input h
    unfold anemiaPredict
    rcases hg : getField input "Gender" with _ | g <;>
    rcases hh : getField input "Hemoglobin" with _ | hb <;>
    rcases hm1 : getField input "MCH" with _ | mch <;>
    rcases hm2 : getField input "MCHC" with _ | mchc <;>
    rcases hm3 : getField input "MCV" with _ | mcv <;>
      simp_all
  · intro art input
    rfl

/-- Witness for C3 (amended): concrete empty/partial records for the
validation paths of the three tabular predictors. -/
theorem missing_fields_validation_witness :
    pcosPredict (PCOSArtifacts.mk (fun _ => 0) 0 []) []
      = Except.error (PCOSError.missingFeatures (pcosMissing []))
    ∧ osteoporosisPredict (OsteoArtifacts.mk (fun _ => 0) [] 0 []) []
      = Except.error (OsteoError.missingFields (osteoMissing []))
    ∧ anemiaPredict (AnemiaArtifacts.mk (fun _ => 0) [])
        [("Hemoglobin", 10), ("MCH", 30), ("MCHC", 30), ("MCV", 80)]
      = Except.error (AnemiaError.missingFields
          ["Gender", "Hemoglobin", "MCH", "MCHC", "MCV"]) :=
  ⟨missing_fields_validation.1 (PCOSArtifacts.mk (fun _ => 0) 0 []) []
      (by decide),
   missing_fields_validation.2.2.1 (OsteoArtifacts.mk (fun _ => 0) [] 0 []) []
      (by decide),
   missing_fields_validation.2.2.2.2.1 (AnemiaArtifacts.mk (fun _ => 0) [])
      [("Hemoglobin", 10), ("MCH", 30), ("MCHC", 30), ("MCV", 80)]
      (Or.inl (by decide))⟩

/-- C8: with the loaded artifacts fixed, the prediction pipeline is a
pure function of artifacts and input that leaves the object state
unchanged, so two successive invocations on the identical record return
identical results (probability, risk tier and all) — which also makes
per-request results independent of the order in which requests are
served. -/
theorem predict_idempotent_pure :
    (∀ (a : PCOSArtifacts) (x : Record),
        (pcosPredictMethod ((pcosPredictMethod a x).2) x).1 = (pcosPredictMethod a x).1
        ∧ (pcosPredictMethod a x).2 = a)
    ∧ (∀ (a : AnemiaArtifacts) (x : Record),
        (anemiaPredictMethod ((anemiaPredictMethod a x).2) x).1
            = (anemiaPredictMethod a x).1
        ∧ (anemiaPredictMethod a x).2 = a) :=
  ⟨fun _ _ => ⟨rfl, rfl⟩, fun _ _ => ⟨rfl, rfl⟩⟩
